import Mathlib

/-!
Verification of the rotki dashboard net-worth panel
(`src/frontend/app/src/components/dashboard/OverallBalances.vue`) and the
statistics HTTP client
(`src/frontend/app/src/services/statistics/statistics-api.ts`).

The component manipulates JavaScript numbers and `bignumber.js` values.
`BigNum` models a bignumber.js value: either a finite arbitrary-precision
decimal (modelled as a rational) or one of the non-finite values
`Infinity`, `-Infinity`, `NaN` that bignumber.js mirrors from IEEE
semantics.
-/

namespace Rotki

/-- A bignumber.js value: finite rational, positive infinity, negative
infinity, or not-a-number. -/
inductive BigNum where
  | fin (q : ℚ)
  | posInf
  | negInf
  | nan
deriving DecidableEq

namespace BigNum

/-- Subtraction, bignumber.js `minus`: NaN is absorbing, infinities of the
same sign cancel to NaN, otherwise the usual extended-real rules. -/
def minus : BigNum → BigNum → BigNum
  | nan, _ => nan
  | _, nan => nan
  | fin a, fin b => fin (a - b)
  | fin _, posInf => negInf
  | fin _, negInf => posInf
  | posInf, fin _ => posInf
  | negInf, fin _ => negInf
  | posInf, negInf => posInf
  | negInf, posInf => negInf
  | posInf, posInf => nan
  | negInf, negInf => nan

/-- Division, bignumber.js `div`: NaN absorbing, finite divided by zero is
a signed infinity (0 / 0 is NaN), finite divided by infinity is zero,
infinity divided by infinity is NaN. -/
def div : BigNum → BigNum → BigNum
  | nan, _ => nan
  | _, nan => nan
  | fin a, fin b =>
      if b = 0 then
        if a > 0 then posInf else if a < 0 then negInf else nan
      else fin (a / b)
  | fin _, posInf => fin 0
  | fin _, negInf => fin 0
  | posInf, fin b => if b < 0 then negInf else posInf
  | negInf, fin b => if b < 0 then posInf else negInf
  | posInf, posInf => nan
  | posInf, negInf => nan
  | negInf, posInf => nan
  | negInf, negInf => nan

/-- Multiplication, bignumber.js `multipliedBy`: NaN absorbing, zero times
infinity is NaN, otherwise sign rules of extended reals. -/
def multipliedBy : BigNum → BigNum → BigNum
  | nan, _ => nan
  | _, nan => nan
  | fin a, fin b => fin (a * b)
  | fin a, posInf => if a > 0 then posInf else if a < 0 then negInf else nan
  | fin a, negInf => if a > 0 then negInf else if a < 0 then posInf else nan
  | posInf, fin b => if b > 0 then posInf else if b < 0 then negInf else nan
  | negInf, fin b => if b > 0 then negInf else if b < 0 then posInf else nan
  | posInf, posInf => posInf
  | posInf, negInf => negInf
  | negInf, posInf => negInf
  | negInf, negInf => posInf

/-- bignumber.js `isFinite`: true exactly for finite values. -/
def isFinite : BigNum → Bool
  | fin _ => true
  | _ => false

/-- bignumber.js `isNegative`: the stored sign is negative; NaN has no
sign and reports false, as does zero. -/
def isNegative : BigNum → Bool
  | fin q => decide (q < 0)
  | posInf => false
  | negInf => true
  | nan => false

end BigNum

/-!
Decimal formatting: bignumber.js `toFormat(2)` with default settings
rounds to two decimal places (ROUND_HALF_UP, half away from zero), uses
a dot as decimal separator and a comma as group separator with groups
of three digits, and prints a minus sign only when the rounded value is
non-zero.
-/

/-- Round q to an integer count of hundredths, half away from zero: the
numerator of 100 q over its denominator, rounded half up on the absolute
value and given back the sign. -/
def roundHalfUpTo2 (q : ℚ) : ℤ :=
  let n := q.num * 100
  let d := (q.den : ℤ)
  if n < 0 then -((2 * (-n) + d) / (2 * d)) else (2 * n + d) / (2 * d)

/-- Insert a comma group separator after every three digits, counting
from the least-significant end; the input and output are
most-significant-first digit lists. -/
def insertCommasRev : List Char → ℕ → List Char
  | [], _ => []
  | c :: cs, k =>
      if k % 3 = 0 ∧ 0 < k then ',' :: c :: insertCommasRev cs (k + 1)
      else c :: insertCommasRev cs (k + 1)

/-- Group the decimal digits of a natural number with comma separators. -/
def groupedDigits (n : ℕ) : String :=
  String.mk (insertCommasRev (Nat.toDigits 10 n).reverse 0).reverse

/-- bignumber.js `toFormat(2)` on a finite value. -/
def toFormat2 (q : ℚ) : String :=
  let r := roundHalfUpTo2 q
  let sign := if r < 0 then "-" else ""
  let n := r.natAbs
  let frac := n % 100
  sign ++ groupedDigits (n / 100) ++ "." ++ (if frac < 10 then "0" else "") ++ toString frac

/-- bignumber.js `toFormat(2)` on any value: non-finite values print
their IEEE names. -/
def BigNum.toFormatTwo : BigNum → String
  | BigNum.fin q => toFormat2 q
  | BigNum.posInf => "Infinity"
  | BigNum.negInf => "-Infinity"
  | BigNum.nan => "NaN"

/-!
`startingValue` from OverallBalances.vue:

  const data = get(timeframeData).data;
  let start = data[0];
  if (start === 0) {
    for (let i = 1; i < data.length; i++) {
      if (data[i] > 0) { start = data[i]; break; }
    }
  }
  return bigNumberify(start);

On an empty series `data[0]` is `undefined`, the strict comparison with 0
is false, and `bigNumberify(undefined)` yields NaN.
-/

/-- The `for` loop of `startingValue`: the first strictly-positive
element, scanning left to right. -/
def firstPositive : List ℚ → Option ℚ
  | [] => none
  | x :: xs => if 0 < x then some x else firstPositive xs

/-- `startingValue` of OverallBalances.vue on the series data. -/
def startingValue (data : List ℚ) : BigNum :=
  match data with
  | [] => BigNum.nan
  | d :: rest =>
      BigNum.fin (if d = 0 then (firstPositive rest).getD 0 else d)

/-- `balanceDelta` of OverallBalances.vue:
`totalNetWorth.minus(startingValue)`. -/
def balanceDelta (totalNetWorth : BigNum) (data : List ℚ) : BigNum :=
  totalNetWorth.minus (startingValue data)

/-- `percentage` of OverallBalances.vue:
`balanceDelta.div(startingValue).multipliedBy(100)`, rendered with
`toFormat(2)` when finite and as a dash otherwise. -/
def percentage (totalNetWorth : BigNum) (data : List ℚ) : String :=
  let bigNumber :=
    ((balanceDelta totalNetWorth data).div (startingValue data)).multipliedBy (BigNum.fin 100)
  if bigNumber.isFinite then bigNumber.toFormatTwo else "-"

/-!
Font-size adaptation from OverallBalances.vue:

  const digits = get(totalNetWorth)
    .toFormat(get(floatingPrecision))
    .replace(/\./g, '')
    .replace(/,/g, '').length;
  return Math.min(1, 12 / digits);

In JavaScript 12 / 0 is Infinity and Math.min(1, Infinity) is 1.
-/

/-- The digit count of a formatted total: its length after removing every
dot and every comma. -/
def formattedDigitCount (s : String) : ℕ :=
  ((s.data.filter fun c => !(c == '.')).filter fun c => !(c == ',')).length

/-- The inverse digit-count scale clipped at one, on a digit count. -/
def fontScaleOfDigits (digits : ℕ) : ℚ :=
  if digits = 0 then 1 else min 1 (12 / (digits : ℚ))

/-- `adjustedTotalNetWorthFontSize` of OverallBalances.vue on the
formatted total. -/
def adjustedTotalNetWorthFontSize (formattedTotal : String) : ℚ :=
  fontScaleOfDigits (formattedDigitCount formattedTotal)

/-- `indicator` of OverallBalances.vue: empty while loading, otherwise an
up or down glyph from the sign of the delta. -/
def indicator (loading : Bool) (delta : BigNum) : String :=
  if loading then ""
  else if delta.isNegative then "mdi-menu-down" else "mdi-menu-up"

/-- `balanceClass` of OverallBalances.vue: neutral grey while loading,
otherwise red or green from the sign of the delta. -/
def balanceClass (loading : Bool) (delta : BigNum) : String :=
  if loading then "rotki-grey lighten-3"
  else if delta.isNegative then "rotki-red lighten-1" else "rotki-green"

/-!
Time-frame selection. The enumerated windows come from the external
settings library; only the two-week window and the remember sentinel are
named in the sources. Modelled from the spec: a TimeFrameSetting is an
enumerated lookback window or a sentinel meaning use the previously
remembered value.
-/

/-- An enumerated lookback window. -/
inductive TimeFramePeriod where
  | all
  | year
  | threeMonths
  | month
  | twoWeeks
  | week
deriving DecidableEq

/-- A window selection: a concrete window or the remember sentinel. -/
inductive TimeFrameSetting where
  | period (p : TimeFramePeriod)
  | remember
deriving DecidableEq

/-- The session settings store state used by the panel. -/
structure SessionState where
  timeframe : TimeFramePeriod
deriving DecidableEq

/-- The frontend settings store state used by the panel. -/
structure FrontendState where
  lastKnownTimeframe : TimeFramePeriod
deriving DecidableEq

/-- A failed `assert` precondition. -/
inductive PanelError where
  | assertionFailed
deriving DecidableEq

/-- `setTimeframe` of OverallBalances.vue: asserts the value is not the
remember sentinel, then updates the transient session timeframe and
persists it as the last known timeframe.  A failed assertion throws
before either store is touched. -/
def setTimeframe (session : SessionState) (frontend : FrontendState)
    (value : TimeFrameSetting) : Except PanelError (SessionState × FrontendState) :=
  match value with
  | TimeFrameSetting.remember => Except.error PanelError.assertionFailed
  | TimeFrameSetting.period p =>
      Except.ok ({ session with timeframe := p }, { frontend with lastKnownTimeframe := p })

/-- A data fetch issued by the panel. -/
inductive FetchAction where
  | fetchNetValue
deriving DecidableEq

/-- The `watch(premium)` handler of OverallBalances.vue: fetch the net
value series exactly when the session is logged in. -/
def premiumWatchHandler (logged : Bool) : List FetchAction :=
  if logged then [FetchAction.fetchNetValue] else []

/-- The `onMounted` hook of OverallBalances.vue: when the user is not
premium and the selected window is not allowed, reset the selection to
the two-week window.  `isPeriodAllowed` is not among the sources;
modelled from the spec as a caller-supplied entitlement predicate on
windows.  The hook issues no fetch; the returned list is the fetches it
performs. -/
def onMountedHook (isPremium : Bool) (allowed : TimeFramePeriod → Bool)
    (session : SessionState) : SessionState × List FetchAction :=
  if !isPremium && !(allowed session.timeframe) then
    ({ timeframe := TimeFramePeriod.twoWeeks }, [])
  else (session, [])

/-!
The statistics client, statistics-api.ts.  Each operation performs an
HTTP request whose acceptable statuses are decided by the caller-supplied
`validStatus` policy (the transport rejects the response otherwise), then
unwraps the uniform result envelope, and for the three typed operations
schema-validates the unwrapped value.  The envelope unwrapping
(`handleResponse`) and the response schemas live outside the sources and
are modelled from the spec.
-/

/-- A JSON-like response body value. -/
inductive JVal where
  | null
  | bool (b : Bool)
  | num (q : ℚ)
  | str (s : String)
  | arr (elems : List JVal)
  | obj (fields : List (String × JVal))

/-- The error taxonomy of the client: transport failure on a rejected
status, a malformed envelope, or a schema mismatch. -/
inductive ApiError where
  | requestError
  | responseError
  | schemaError
deriving DecidableEq

/-- An HTTP response: status code and parsed JSON body. -/
structure HttpResponse where
  status : ℕ
  body : JVal

/-- First field with the given key in an object field list. -/
def getField (key : String) : List (String × JVal) → Option JVal
  | [] => none
  | (k, v) :: rest => if k = key then some v else getField key rest

/-- Modelled from the spec: `handleResponse` of services/utils is not
among the sources; the spec describes it as unwrapping the uniform
result envelope before handing the result to callers, failing when no
result is present. -/
def handleResponse (body : JVal) : Except ApiError JVal :=
  match body with
  | JVal.obj fields =>
      match getField "result" fields with
      | some JVal.null => Except.error ApiError.responseError
      | some v => Except.ok v
      | none => Except.error ApiError.responseError
  | _ => Except.error ApiError.responseError

/-- `queryNetValueData`: status validation, then envelope unwrapping; the
result is returned without schema validation. -/
def queryNetValueData (validStatus : ℕ → Bool) (resp : HttpResponse) :
    Except ApiError JVal :=
  if validStatus resp.status then handleResponse resp.body
  else Except.error ApiError.requestError

/-- `queryTimedBalancesData`: status validation, envelope unwrapping,
then schema validation of the unwrapped value against the TimedBalances
shape (a caller-supplied predicate, the schema being external to the
sources). -/
def queryTimedBalancesData (validStatus : ℕ → Bool)
    (parseTimedBalances : JVal → Bool) (resp : HttpResponse) :
    Except ApiError JVal :=
  if validStatus resp.status then
    match handleResponse resp.body with
    | Except.ok v =>
        if parseTimedBalances v then Except.ok v
        else Except.error ApiError.schemaError
    | Except.error e => Except.error e
  else Except.error ApiError.requestError

/-- `queryLatestLocationValueDistribution`: status validation, envelope
unwrapping, then schema validation against the LocationData shape. -/
def queryLatestLocationValueDistribution (validStatus : ℕ → Bool)
    (parseLocationData : JVal → Bool) (resp : HttpResponse) :
    Except ApiError JVal :=
  if validStatus resp.status then
    match handleResponse resp.body with
    | Except.ok v =>
        if parseLocationData v then Except.ok v
        else Except.error ApiError.schemaError
    | Except.error e => Except.error e
  else Except.error ApiError.requestError

/-- `queryLatestAssetValueDistribution`: status validation, envelope
unwrapping, then schema validation against the TimedAssetBalances
shape. -/
def queryLatestAssetValueDistribution (validStatus : ℕ → Bool)
    (parseTimedAssetBalances : JVal → Bool) (resp : HttpResponse) :
    Except ApiError JVal :=
  if validStatus resp.status then
    match handleResponse resp.body with
    | Except.ok v =>
        if parseTimedAssetBalances v then Except.ok v
        else Except.error ApiError.schemaError
    | Except.error e => Except.error e
  else Except.error ApiError.requestError

/-- `queryStatisticsRenderer`: status validation, then envelope
unwrapping; the unwrapped result is returned with no schema
validation. -/
def queryStatisticsRenderer (validStatus : ℕ → Bool) (resp : HttpResponse) :
    Except ApiError JVal :=
  if validStatus resp.status then handleResponse resp.body
  else Except.error ApiError.requestError

end Rotki

namespace Rotki

example : startingValue [0, 0, 50, 80] = BigNum.fin 50 := by decide

example : startingValue [0, -3, 7] = BigNum.fin 7 := by decide

example : toFormat2 (100 : ℚ) = "100.00" := by decide

example : toFormat2 (1234567 : ℚ) = "1,234,567.00" := by decide

example : toFormat2 (-5 : ℚ) = "-5.00" := by decide

example :
    roundHalfUpTo2 (Rat.mk' 1 8 (by decide) (Nat.coprime_one_left 8)) = 13 := by decide

example :
    roundHalfUpTo2 (Rat.mk' (-1) 1000 (by decide) (by simp)) = 0 := by
  decide

/-- The loop of `startingValue` finds exactly the first element of the
list satisfying the strict-positivity test, in order. -/
lemma firstPositive_eq_find (l : List ℚ) :
    firstPositive l = l.find? fun x => decide (0 < x) := by
  induction l with
  | nil => rfl
  | cons x xs ih =>
      by_cases h : 0 < x <;> simp [firstPositive, List.find?_cons, h, ih]

/-- C1: for a fetched net-value series, the starting value is the first
data point; when that first value is exactly zero it is the first
strictly-positive later value in order, and zero when no
strictly-positive value exists. -/
theorem startingValue_skips_leading_zero (d : ℚ) (rest : List ℚ) :
    startingValue (d :: rest) =
      BigNum.fin (if d = 0 then ((rest.find? fun x => decide (0 < x)).getD 0) else d) := by
  by_cases h : d = 0 <;> simp [startingValue, h, firstPositive_eq_find]

/-- C3 counterexample: the derived starting value is not the first
non-zero entry of the series.  On the series 0, -1 the first non-zero
entry is -1, but the code skips negative values during its scan and
yields zero; and on the empty series the code yields NaN rather than
zero. -/
theorem startingValue_not_first_nonzero :
    (([0, -1] : List ℚ).find? fun x => decide (x ≠ 0)) = some (-1) ∧
    startingValue [0, -1] ≠ BigNum.fin (-1) ∧
    startingValue [0, -1] = BigNum.fin 0 ∧
    startingValue ([] : List ℚ) ≠ BigNum.fin 0 := by
  decide

/-- C3 amended: the derived StartingValue equals the first entry of the
series when that entry is non-zero; when the first entry is zero it
equals the first strictly-positive later entry, or zero if none exists;
on an empty series it is NaN rather than zero. -/
theorem startingValue_characterization (data : List ℚ) :
    startingValue data =
      match data with
      | [] => BigNum.nan
      | d :: rest =>
          BigNum.fin (if d = 0 then ((rest.find? fun x => decide (0 < x)).getD 0) else d) := by
  cases data with
  | nil => rfl
  | cons d rest =>
      by_cases h : d = 0 <;> simp [startingValue, h, firstPositive_eq_find]

/-- C4: calling `setTimeframe` with the remember sentinel always fails
the asserted precondition, and the sentinel is never handed to the
stores; a concrete window updates the session timeframe and persists the
last known timeframe. -/
theorem setTimeframe_rejects_remember_sentinel (session : SessionState)
    (frontend : FrontendState) :
    setTimeframe session frontend TimeFrameSetting.remember =
      Except.error PanelError.assertionFailed ∧
    ∀ p : TimeFramePeriod,
      setTimeframe session frontend (TimeFrameSetting.period p) =
        Except.ok ({ session with timeframe := p },
          { frontend with lastKnownTimeframe := p }) := by
  exact ⟨rfl, fun p => rfl⟩

/-- C5: on mount with a non-premium user, a disallowed selected window is
downgraded to the two-week window and an allowed one is kept; a premium
user keeps the selection; in every case the mount hook issues no data
fetch. -/
theorem onMounted_downgrades_disallowed_window (allowed : TimeFramePeriod → Bool)
    (session : SessionState) :
    onMountedHook false allowed session =
      (if allowed session.timeframe then (session, [])
       else ({ timeframe := TimeFramePeriod.twoWeeks }, [])) ∧
    onMountedHook true allowed session = (session, []) := by
  constructor
  · by_cases h : allowed session.timeframe <;> simp [onMountedHook, h]
  · simp [onMountedHook]

/-- C6: the premium entitlement watcher issues the net-value refetch
exactly when the session is logged in, and issues nothing when it is
not. -/
theorem premium_watch_fetches_iff_logged (logged : Bool) :
    (FetchAction.fetchNetValue ∈ premiumWatchHandler logged ↔ logged = true) ∧
    premiumWatchHandler false = [] := by
  cases logged <;> simp [premiumWatchHandler]

/-- The clipped inverse scale never exceeds one. -/
lemma fontScaleOfDigits_le_one (d : ℕ) : fontScaleOfDigits d ≤ 1 := by
  unfold fontScaleOfDigits
  split
  · exact le_refl 1
  · exact min_le_left 1 _

/-- The clipped inverse scale is antitone in the digit count. -/
lemma fontScaleOfDigits_antitone {d1 d2 : ℕ} (h : d1 ≤ d2) :
    fontScaleOfDigits d2 ≤ fontScaleOfDigits d1 := by
  rcases Nat.eq_zero_or_pos d1 with h1 | h1
  · subst h1
    simpa [fontScaleOfDigits] using fontScaleOfDigits_le_one d2
  · have h2 : 0 < d2 := lt_of_lt_of_le h1 h
    rw [fontScaleOfDigits, fontScaleOfDigits, if_neg (Nat.pos_iff_ne_zero.mp h1),
      if_neg (Nat.pos_iff_ne_zero.mp h2)]
    refine min_le_min (le_refl 1) ?_
    have hq1 : (0 : ℚ) < (d1 : ℚ) := by exact_mod_cast h1
    have hq : (d1 : ℚ) ≤ (d2 : ℚ) := by exact_mod_cast h
    exact div_le_div_of_nonneg_left (by norm_num) hq1 hq

/-- C8: the font-scale factor computed from a formatted total is
monotonically non-increasing in the digit count (the formatted length
with decimal dots and grouping commas removed), and never exceeds one. -/
theorem fontSize_antitone_and_clipped (s1 s2 : String)
    (h : formattedDigitCount s1 ≤ formattedDigitCount s2) :
    adjustedTotalNetWorthFontSize s2 ≤ adjustedTotalNetWorthFontSize s1 ∧
    adjustedTotalNetWorthFontSize s2 ≤ 1 := by
  exact ⟨fontScaleOfDigits_antitone h, fontScaleOfDigits_le_one _⟩

/-- C8 witness: a four-digit formatted total against a fourteen-digit
one. -/
theorem fontSize_antitone_and_clipped_witness :
    adjustedTotalNetWorthFontSize "123,456,789,012.34" ≤
      adjustedTotalNetWorthFontSize "12.34" ∧
    adjustedTotalNetWorthFontSize "123,456,789,012.34" ≤ 1 :=
  fontSize_antitone_and_clipped "12.34" "123,456,789,012.34" (by decide)

/-- C9: while the series is loading the trend indicator is empty and the
delta pill is neutral grey whatever the delta is; when it is not
loading, a total below the starting value yields the down glyph and the
red class, and otherwise the up glyph and the green class. -/
theorem indicator_balanceClass_loading_and_sign (t s : ℚ) (data : List ℚ)
    (hs : startingValue data = BigNum.fin s) :
    indicator true (balanceDelta (BigNum.fin t) data) = "" ∧
    balanceClass true (balanceDelta (BigNum.fin t) data) = "rotki-grey lighten-3" ∧
    indicator false (balanceDelta (BigNum.fin t) data) =
      (if t < s then "mdi-menu-down" else "mdi-menu-up") ∧
    balanceClass false (balanceDelta (BigNum.fin t) data) =
      (if t < s then "rotki-red lighten-1" else "rotki-green") := by
  have hd : balanceDelta (BigNum.fin t) data = BigNum.fin (t - s) := by
    simp [balanceDelta, hs, BigNum.minus]
  have hneg : (BigNum.fin (t - s)).isNegative = decide (t < s) := by
    simp [BigNum.isNegative, sub_neg]
  rw [hd]
  refine ⟨rfl, rfl, ?_, ?_⟩ <;>
    by_cases hts : t < s <;> simp [indicator, balanceClass, hneg, hts]

/-- C9 witness: a concrete loss, total zero against starting value
one. -/
theorem indicator_balanceClass_loading_and_sign_witness :
    indicator true (balanceDelta (BigNum.fin 0) [1]) = "" ∧
    balanceClass true (balanceDelta (BigNum.fin 0) [1]) = "rotki-grey lighten-3" ∧
    indicator false (balanceDelta (BigNum.fin 0) [1]) = "mdi-menu-down" ∧
    balanceClass false (balanceDelta (BigNum.fin 0) [1]) = "rotki-red lighten-1" := by
  obtain ⟨h1, h2, h3, h4⟩ :=
    indicator_balanceClass_loading_and_sign 0 1 [1] (by decide)
  rw [if_pos (by norm_num : (0 : ℚ) < 1)] at h3 h4
  exact ⟨h1, h2, h3, h4⟩

/-- C10: on the empty series every derived computation is total: the
starting value is the NaN of a missing first element, the delta is
non-finite, and the percentage renders as the dash; furthermore a delta
of exactly zero, arising whenever the total equals the starting value,
counts as non-negative and yields the up glyph and the green class. -/
theorem empty_series_total_and_zero_delta (total : BigNum) (t s : ℚ)
    (data : List ℚ) (hs : startingValue data = BigNum.fin s) (hts : t = s) :
    startingValue ([] : List ℚ) = BigNum.nan ∧
    balanceDelta total [] = BigNum.nan ∧
    BigNum.isFinite (balanceDelta total []) = false ∧
    percentage total [] = "-" ∧
    balanceDelta (BigNum.fin t) data = BigNum.fin 0 ∧
    indicator false (balanceDelta (BigNum.fin t) data) = "mdi-menu-up" ∧
    balanceClass false (balanceDelta (BigNum.fin t) data) = "rotki-green" := by
  subst hts
  have h0 : balanceDelta (BigNum.fin t) data = BigNum.fin 0 := by
    simp [balanceDelta, hs, BigNum.minus]
  have hempty : balanceDelta total [] = BigNum.nan := by
    cases total <;> simp [balanceDelta, startingValue, BigNum.minus]
  refine ⟨rfl, hempty, ?_, ?_, h0, ?_, ?_⟩
  · rw [hempty]; rfl
  · simp [percentage, hempty, startingValue, BigNum.div, BigNum.multipliedBy,
      BigNum.isFinite]
  · rw [h0]; simp [indicator, BigNum.isNegative]
  · rw [h0]; simp [balanceClass, BigNum.isNegative]

/-- C10 witness: a concrete total equal to the starting value of its
series. -/
theorem empty_series_total_and_zero_delta_witness :
    startingValue ([] : List ℚ) = BigNum.nan ∧
    balanceDelta (BigNum.fin 7) [] = BigNum.nan ∧
    BigNum.isFinite (balanceDelta (BigNum.fin 7) []) = false ∧
    percentage (BigNum.fin 7) [] = "-" ∧
    balanceDelta (BigNum.fin 1) [1] = BigNum.fin 0 ∧
    indicator false (balanceDelta (BigNum.fin 1) [1]) = "mdi-menu-up" ∧
    balanceClass false (balanceDelta (BigNum.fin 1) [1]) = "rotki-green" :=
  empty_series_total_and_zero_delta (BigNum.fin 7) 1 1 [1] (by decide) rfl

/-- C2: with a finite total and a finite starting value, the displayed
percentage is delta over the starting value times one hundred formatted
to two decimal places, and whenever the starting value is zero the
ratio is non-finite and the dash placeholder is shown instead of any
numeric string. -/
theorem percentage_formula_and_dash_on_zero_start (t s : ℚ) (data : List ℚ)
    (hs : startingValue data = BigNum.fin s) :
    percentage (BigNum.fin t) data =
      if s = 0 then "-" else toFormat2 ((t - s) / s * 100) := by
  have hd : balanceDelta (BigNum.fin t) data = BigNum.fin (t - s) := by
    simp [balanceDelta, hs, BigNum.minus]
  by_cases h0 : s = 0
  · subst h0
    have hdiv : (balanceDelta (BigNum.fin t) data).div (startingValue data) =
        if 0 < t then BigNum.posInf else if t < 0 then BigNum.negInf
        else BigNum.nan := by
      rw [hd, hs]
      norm_num [BigNum.div]
    rcases lt_trichotomy t 0 with ht | ht | ht
    · have hneg : (balanceDelta (BigNum.fin t) data).div (startingValue data) =
          BigNum.negInf := by
        rw [hdiv, if_neg (not_lt.mpr (le_of_lt ht)), if_pos ht]
      simp [percentage, hneg, BigNum.multipliedBy, BigNum.isFinite,
        (by norm_num : (0 : ℚ) < 100)]
    · subst ht
      have hnan : (balanceDelta (BigNum.fin 0) data).div (startingValue data) =
          BigNum.nan := by
        rw [hdiv, if_neg (lt_irrefl 0), if_neg (lt_irrefl 0)]
      simp [percentage, hnan, BigNum.multipliedBy, BigNum.isFinite]
    · have hpos : (balanceDelta (BigNum.fin t) data).div (startingValue data) =
          BigNum.posInf := by
        rw [hdiv, if_pos ht]
      simp [percentage, hpos, BigNum.multipliedBy, BigNum.isFinite,
        (by norm_num : (0 : ℚ) < 100)]
  · simp [percentage, hd, hs, BigNum.div, BigNum.multipliedBy, BigNum.isFinite,
      BigNum.toFormatTwo, h0]

/-- C2 witness: the series 0, 0, 50, 80 with total one hundred gives
starting value fifty, delta fifty, and percentage 100.00. -/
theorem percentage_formula_and_dash_on_zero_start_witness :
    percentage (BigNum.fin 100) [0, 0, 50, 80] = "100.00" := by
  have h := percentage_formula_and_dash_on_zero_start 100 50 [0, 0, 50, 80] (by decide)
  rw [h, if_neg (by norm_num : (50 : ℚ) ≠ 0),
    (by norm_num : ((100 : ℚ) - 50) / 50 * 100 = 100)]
  decide

/-- C7: every statistics operation applies the status-validation policy
before the envelope is unwrapped, failing with the transport error on a
rejected status; the timed-balances, location-distribution, and
asset-distribution operations then schema-validate the unwrapped value
and fail with the schema error on mismatch, while the renderer and
net-value operations return the unwrapped value without any schema
validation. -/
theorem statistics_api_validation_pipeline (validStatus : ℕ → Bool)
    (pb pl pa : JVal → Bool) (resp : HttpResponse) (v : JVal)
    (bad : HttpResponse)
    (hok : validStatus resp.status = true)
    (hunwrap : handleResponse resp.body = Except.ok v)
    (hbad : validStatus bad.status = false) :
    queryTimedBalancesData validStatus pb resp =
      (if pb v then Except.ok v else Except.error ApiError.schemaError) ∧
    queryLatestLocationValueDistribution validStatus pl resp =
      (if pl v then Except.ok v else Except.error ApiError.schemaError) ∧
    queryLatestAssetValueDistribution validStatus pa resp =
      (if pa v then Except.ok v else Except.error ApiError.schemaError) ∧
    queryStatisticsRenderer validStatus resp = Except.ok v ∧
    queryNetValueData validStatus resp = Except.ok v ∧
    queryTimedBalancesData validStatus pb bad = Except.error ApiError.requestError ∧
    queryLatestLocationValueDistribution validStatus pl bad =
      Except.error ApiError.requestError ∧
    queryLatestAssetValueDistribution validStatus pa bad =
      Except.error ApiError.requestError ∧
    queryStatisticsRenderer validStatus bad = Except.error ApiError.requestError ∧
    queryNetValueData validStatus bad = Except.error ApiError.requestError := by
  refine ⟨?_, ?_, ?_, ?_, ?_, ?_, ?_, ?_, ?_, ?_⟩ <;>
    simp [queryTimedBalancesData, queryLatestLocationValueDistribution,
      queryLatestAssetValueDistribution, queryStatisticsRenderer,
      queryNetValueData, hok, hunwrap, hbad]

/-- C7 witness: a policy accepting exactly status 200, schemas that
reject everything, a well-formed envelope around a string, and a
rejected status 500 response: the three typed operations fail with the
schema error, the renderer and net-value operations still return the
unwrapped value, and every operation fails with the transport error on
the rejected status. -/
theorem statistics_api_validation_pipeline_witness :
    queryTimedBalancesData (fun st => decide (st = 200)) (fun _ => false)
      ⟨200, JVal.obj [("result", JVal.str "ok")]⟩ =
        Except.error ApiError.schemaError ∧
    queryLatestLocationValueDistribution (fun st => decide (st = 200)) (fun _ => false)
      ⟨200, JVal.obj [("result", JVal.str "ok")]⟩ =
        Except.error ApiError.schemaError ∧
    queryLatestAssetValueDistribution (fun st => decide (st = 200)) (fun _ => false)
      ⟨200, JVal.obj [("result", JVal.str "ok")]⟩ =
        Except.error ApiError.schemaError ∧
    queryStatisticsRenderer (fun st => decide (st = 200))
      ⟨200, JVal.obj [("result", JVal.str "ok")]⟩ = Except.ok (JVal.str "ok") ∧
    queryNetValueData (fun st => decide (st = 200))
      ⟨200, JVal.obj [("result", JVal.str "ok")]⟩ = Except.ok (JVal.str "ok") ∧
    queryTimedBalancesData (fun st => decide (st = 200)) (fun _ => false)
      ⟨500, JVal.null⟩ = Except.error ApiError.requestError ∧
    queryLatestLocationValueDistribution (fun st => decide (st = 200)) (fun _ => false)
      ⟨500, JVal.null⟩ = Except.error ApiError.requestError ∧
    queryLatestAssetValueDistribution (fun st => decide (st = 200)) (fun _ => false)
      ⟨500, JVal.null⟩ = Except.error ApiError.requestError ∧
    queryStatisticsRenderer (fun st => decide (st = 200)) ⟨500, JVal.null⟩ =
      Except.error ApiError.requestError ∧
    queryNetValueData (fun st => decide (st = 200)) ⟨500, JVal.null⟩ =
      Except.error ApiError.requestError := by
  have h := statistics_api_validation_pipeline (fun st => decide (st = 200))
    (fun _ => false) (fun _ => false) (fun _ => false)
    ⟨200, JVal.obj [("result", JVal.str "ok")]⟩ (JVal.str "ok")
    ⟨500, JVal.null⟩ rfl rfl rfl
  simpa using h

end Rotki
